import Mathlib

/-!
Shallow embedding of the MLT frame module (`src/framework/mlt_frame.c`) and
proofs about its lazy image/audio materialization contract.

The frame's collaborators (the generic property store, the deque container,
the image/audio format services and the producer abstraction) are external to
the measured source; they are embedded here by their narrow consumed
interfaces: the property store becomes a record of the reserved keys the
frame uses, the deques become lists whose head is the back of the deque, and
the format services are modelled from the spec where noted.  Machine pointers
are modelled as allocation-numbered buffers so that pointer identity is
meaningful; callbacks registered on a frame's stacks are opaque functions of
the frame's property state.
-/

namespace MltFrame

/-- A heap buffer: an allocation number standing for the pointer identity,
and the buffer contents (bytes for images and bitmaps, 16-bit samples for
audio). -/
structure Buffer where
  id : Nat
  data : List Int
deriving DecidableEq

/-- C integer division: truncation toward zero, as performed by `/` on `int`
in the source. -/
def cdiv (a b : Int) : Int := Int.tdiv a b

/-- C integer remainder matching `cdiv` (sign of the dividend). -/
def cmod (a b : Int) : Int := Int.tmod a b

/-! Pixel format constants.  Modelled from the spec: the enumeration lives in
`mlt_image.h`, which is not part of the measured source; only the relative
identities matter here. -/

def mlt_image_none : Int := 0
def mlt_image_rgb : Int := 1
def mlt_image_rgba : Int := 2
def mlt_image_yuv422 : Int := 3
def mlt_image_yuv420p : Int := 4
def mlt_image_movit : Int := 5
def mlt_image_opengl_texture : Int := 6
def mlt_image_yuv422p16 : Int := 7
def mlt_image_yuv420p10 : Int := 8
def mlt_image_yuv444p10 : Int := 9
def mlt_image_invalid : Int := 10

/-! Audio format constants, likewise modelled from the spec (`mlt_audio_none`
is the "unspecified" sentinel, `mlt_audio_s16` the 16-bit signed format). -/

def mlt_audio_none : Int := 0
def mlt_audio_s16 : Int := 1

/-- Modelled from the spec: the outcome of pulling one frame from the
registered test-card producer (`mlt_service_get_frame` followed by
`mlt_frame_get_image` on the produced frame, including that frame's own
converter hook); the producer abstraction is a collaborator outside the
measured source.  `error` and the achieved buffer/format/geometry are the
values the nested pull leaves in the caller's out-parameters. -/
structure ProducerPull where
  error : Int
  buffer : Option Buffer
  format : Int
  width : Int
  height : Int
  aspect_ratio : ℚ

/-- Modelled from the spec: a test-card producer, abstracted as the response
it gives to a pull at the requested format/width/height/writable; `none`
means the producer supplied no frame. -/
def Producer : Type := Int → Int → Int → Int → Option ProducerPull

/-- The frame's attribute map, embedded as a record of the reserved keys the
source reads and writes.  Data-valued attributes (`image`, `audio`, `alpha`,
`test_card_producer`, `_producer`, the movit handoff hints and the shallow
clone back-reference) are `Option`-valued so that presence is observable;
their companion byte sizes mirror the size argument of
`mlt_properties_set_data`.  The key "meta.volume" is spelled `meta_volume`
and "_position" is spelled `_position`. -/
structure Props where
  _position : Int
  original_position : Option Int
  image : Option Buffer
  image_size : Int
  alpha : Option Buffer
  alpha_size : Int
  audio : Option Buffer
  audio_size : Int
  width : Int
  height : Int
  format : Int
  audio_format : Int
  audio_frequency : Int
  audio_channels : Int
  audio_samples : Int
  test_image : Int
  test_audio : Int
  aspect_ratio : ℚ
  image_count : Int
  meta_volume : Option ℚ
  test_card_producer : Option Producer
  _producer : Option Unit
  movit_convert : Option Unit
  movit_cpu_convert : Option Unit
  cloned_frame : Bool
  waveform : Option Buffer

/-- What an image callback popped from the image stack leaves behind: the
error code it returns, the values it stores through the in-out
buffer/format/width/height pointers, and the frame properties it may have
mutated.  Callbacks are opaque collaborators; their possible use of the
frame's stacks is outside this embedding. -/
structure ImageOut where
  error : Int
  buffer : Option Buffer
  format : Int
  width : Int
  height : Int
  props : Props

/-- An image callback (`mlt_get_image`): arguments are the frame properties,
the current value of the buffer cell, and format/width/height/writable. -/
def ImageHandler : Type := Props → Option Buffer → Int → Int → Int → Int → ImageOut

/-- What an audio callback leaves behind; `mlt_frame_get_audio` ignores the
callback's return value, so no error field is recorded. -/
structure AudioOut where
  props : Props
  buffer : Option Buffer
  format : Int
  frequency : Int
  channels : Int
  samples : Int

/-- An audio callback (`mlt_get_audio`): frame properties, buffer cell value,
and format/frequency/channels/samples. -/
def AudioHandler : Type := Props → Option Buffer → Int → Int → Int → Int → AudioOut

/-- A converter hook (`convert_image`/`convert_audio`): transforms a buffer
from the achieved format to the requested format, yielding the new buffer and
the final format. -/
def Converter : Type := Buffer → Int → Int → Buffer × Int

/-- The frame object: attribute map, the three deferred-call stacks, the two
optional converter hooks, and the allocation counter standing in for the pool
allocator's fresh-address guarantee. -/
structure Frame where
  props : Props
  stack_image : List ImageHandler
  stack_audio : List AudioHandler
  stack_service : List Unit
  convert_image : Option Converter
  convert_audio : Option Converter
  next_alloc : Nat

/-! Deque container collaborator: a list whose head is the back of the deque,
so `push_back` conses and `pop_back` takes the head; popping an empty deque
yields `none` (the NULL sentinel). -/

def mlt_deque_push_back {α : Type} (l : List α) (x : α) : List α := x :: l

def mlt_deque_pop_back {α : Type} : List α → Option α × List α
  | [] => (none, [])
  | x :: xs => (some x, xs)

def mlt_deque_count {α : Type} (l : List α) : Int := l.length

/-- A profile supplies default frame geometry. -/
structure Profile where
  width : Int
  height : Int

/-- Modelled from the spec: `mlt_profile_sar(NULL)` — the default sample
aspect ratio of the external profile collaborator, taken to be 1. -/
def mlt_profile_sar_default : ℚ := 1

/-- `mlt_frame_init`: a zeroed frame with the default attributes installed
(current position 0, null image/audio/alpha data, geometry from the profile
or the 720x576 fallback) and three empty stacks.  The allocation-failure path
returns NULL in C and is not modelled. -/
def mlt_frame_init (profile : Option Profile) : Frame :=
  { props :=
      { _position := 0
        original_position := none
        image := none
        image_size := 0
        alpha := none
        alpha_size := 0
        audio := none
        audio_size := 0
        width := match profile with | some p => p.width | none => 720
        height := match profile with | some p => p.height | none => 576
        format := 0
        audio_format := 0
        audio_frequency := 0
        audio_channels := 0
        audio_samples := 0
        test_image := 0
        test_audio := 0
        aspect_ratio := mlt_profile_sar_default
        image_count := 0
        meta_volume := none
        test_card_producer := none
        _producer := none
        movit_convert := none
        movit_cpu_convert := none
        cloned_frame := false
        waveform := none }
    stack_image := []
    stack_audio := []
    stack_service := []
    convert_image := none
    convert_audio := none
    next_alloc := 0 }

/-- `mlt_frame_is_test_card`: the image stack is empty and no image data is
present, or the `test_image` flag is set. -/
def mlt_frame_is_test_card (self : Frame) : Bool :=
  (mlt_deque_count self.stack_image == 0 && self.props.image.isNone)
    || self.props.test_image != 0

/-- `mlt_frame_is_test_audio`: the audio stack is empty and no audio data is
present, or the `test_audio` flag is set. -/
def mlt_frame_is_test_audio (self : Frame) : Bool :=
  (mlt_deque_count self.stack_audio == 0 && self.props.audio.isNone)
    || self.props.test_audio != 0

/-- `mlt_frame_get_position`: the stored current position, clamped to be
non-negative. -/
def mlt_frame_get_position (self : Frame) : Int :=
  let pos := self.props._position
  if pos < 0 then 0 else pos

/-- `mlt_frame_original_position`: the stored original position (0 when never
set, as an absent property reads as 0), clamped to be non-negative. -/
def mlt_frame_original_position (self : Frame) : Int :=
  let pos := self.props.original_position.getD 0
  if pos < 0 then 0 else pos

/-- `mlt_frame_set_position`: the original position is set only the first
time (when the property is still absent), the current position every time. -/
def mlt_frame_set_position (self : Frame) (value : Int) : Frame :=
  let props :=
    if self.props.original_position.isNone then
      { self.props with original_position := some value }
    else self.props
  { self with props := { props with _position := value } }

/-- `mlt_frame_push_get_image`: push an image callback onto the image stack
(the C function returns the deque push error code, which is not modelled). -/
def mlt_frame_push_get_image (self : Frame) (get_image : ImageHandler) : Frame :=
  { self with stack_image := mlt_deque_push_back self.stack_image get_image }

/-- `mlt_frame_pop_get_image`: pop an image callback. -/
def mlt_frame_pop_get_image (self : Frame) : Option ImageHandler × Frame :=
  let (x, rest) := mlt_deque_pop_back self.stack_image
  (x, { self with stack_image := rest })

/-- `mlt_frame_push_audio`: push an audio callback onto the audio stack. -/
def mlt_frame_push_audio (self : Frame) (that : AudioHandler) : Frame :=
  { self with stack_audio := mlt_deque_push_back self.stack_audio that }

/-- `mlt_frame_pop_audio`: pop an audio callback. -/
def mlt_frame_pop_audio (self : Frame) : Option AudioHandler × Frame :=
  let (x, rest) := mlt_deque_pop_back self.stack_audio
  (x, { self with stack_audio := rest })

/-- `mlt_frame_get_alpha`: the stored alpha channel, except that it is NULL
when the frame's image format is RGBA, and NULL for a NULL frame. -/
def mlt_frame_get_alpha (self : Option Frame) : Option Buffer :=
  match self with
  | none => none
  | some f =>
    match f.props.alpha with
    | none => none
    | some alpha =>
      if f.props.format = mlt_image_rgba then none else some alpha

/-- `mlt_frame_get_alpha_size`: as `mlt_frame_get_alpha` but also returning
the final value of the caller's size cell.  Reading the data writes the
stored size into the cell; on the RGBA path the source zeroes its local
`size` pointer rather than the pointee, so the cell keeps the stored size. -/
def mlt_frame_get_alpha_size (self : Option Frame) (size : Option Int) :
    Option Buffer × Option Int :=
  match self with
  | none => (none, size)
  | some f =>
    match f.props.alpha with
    | none => (none, size.map (fun _ => 0))
    | some alpha =>
      let size := size.map (fun _ => f.props.alpha_size)
      if f.props.format = mlt_image_rgba then (none, size) else (some alpha, size)

/-- Modelled from the spec: the `image_format_size` collaborator (§6) giving
the byte size of an image; only its value for the synthesized placeholder's
sizing is used, so the packed formats are abstracted with 2 bytes/pixel. -/
def mlt_image_format_size (format width height : Int) : Int :=
  if format = mlt_image_rgb then width * height * 3
  else if format = mlt_image_rgba then width * height * 4
  else width * height * 2

/-- Modelled from the spec: the `audio_format_size` collaborator (§6); for
16-bit signed audio the size is samples * channels * 2 bytes, the
"unspecified" sentinel has size 0, and other sample formats are abstracted
with 4-byte samples. -/
def mlt_audio_format_size (format samples channels : Int) : Int :=
  if format = mlt_audio_none then 0
  else if format = mlt_audio_s16 then samples * channels * 2
  else samples * channels * 4

/-- Modelled from the spec: the external checkerboard fill kernel; the byte
pattern is outside the measured source and is abstracted as a flat fill. -/
def mlt_image_fill_checkerboard_data (size : Int) : List Int :=
  List.replicate size.toNat 128

/-- Modelled from the spec: the external white fill kernel used when the
companion audio is a test tone; likewise abstracted as a flat fill. -/
def mlt_image_fill_white_data (size : Int) : List Int :=
  List.replicate size.toNat 235

/-- The format adjustment switch of `generate_test_image`: the concrete
CPU formats are kept, the none/movit/opengl formats fall back to yuv422, and
invalid stays invalid. -/
def test_image_format (format : Int) : Int :=
  if format = mlt_image_rgb ∨ format = mlt_image_rgba ∨ format = mlt_image_yuv422 ∨
      format = mlt_image_yuv420p ∨ format = mlt_image_yuv422p16 ∨
      format = mlt_image_yuv420p10 ∨ format = mlt_image_yuv444p10 then
    format
  else if format = mlt_image_none ∨ format = mlt_image_movit ∨
      format = mlt_image_opengl_texture then
    mlt_image_yuv422
  else format

/-- Result of an image pull: the frame after its side effects, the error
code, the final state of the caller's buffer cell (`none` when the caller
passed a NULL buffer pointer), and the achieved format/width/height. -/
structure ImageResult where
  frame : Frame
  error : Int
  buffer : Option (Option Buffer)
  format : Int
  width : Int
  height : Int

/-- The value currently held by an out-parameter cell (NULL pointer reads as
an empty cell). -/
def cellValue (buffer : Option (Option Buffer)) : Option Buffer := buffer.getD none

/-- The synthesis tail of `generate_test_image`, entered when `error` is
still set and the buffer out-pointer is non-NULL: default the geometry,
adjust the format, allocate and fill a placeholder (white when the companion
audio is a test tone, checkerboard otherwise), cache it as the frame's image
and set the `test_image` flag.  The consumer.color_range and aspect-ratio
tint only affect the abstracted fill contents.  The allocation cannot fail in
the model. -/
def synthesize_placeholder (self : Frame) (props : Props) (format width height : Int) :
    ImageResult :=
  let width := if width = 0 then 720 else width
  let height := if height = 0 then 576 else height
  let format := test_image_format format
  let size := mlt_image_format_size format width height
  let data :=
    if props.test_audio != 0 then mlt_image_fill_white_data size
    else mlt_image_fill_checkerboard_data size
  let buf : Buffer := { id := self.next_alloc, data := data }
  let props :=
    { props with
      format := format, width := width, height := height
      image := some buf, image_size := 0, test_image := 1 }
  { frame := { self with props := props, next_alloc := self.next_alloc + 1 }
    error := 0
    buffer := some (some buf)
    format := format, width := width, height := height }

/-- `generate_test_image`: if a test-card producer is registered, pull a
frame from it (clearing the registration when it yields none) and on success
record its aspect ratio, geometry and format; if that leaves the error set
and the buffer out-pointer is non-NULL, fall back to `synthesize_placeholder`.
The caching of the pulled sub-frame under "test_card_frame" (for later
release) has no further observable effect here and is not modelled. -/
def generate_test_image (self : Frame) (buffer : Option (Option Buffer))
    (format width height writable : Int) : ImageResult :=
  let step : Int × Option Buffer × Int × Int × Int × Props :=
    match self.props.test_card_producer with
    | none => (1, cellValue buffer, format, width, height, self.props)
    | some producer =>
      match producer format width height writable with
      | none =>
        (1, cellValue buffer, format, width, height,
          { self.props with test_card_producer := none })
      | some pull =>
        let cell := if buffer.isSome then pull.buffer else cellValue buffer
        if pull.error = 0 ∧ buffer.isSome ∧ pull.buffer.isSome then
          (0, cell, pull.format, pull.width, pull.height,
            { self.props with
              aspect_ratio := pull.aspect_ratio
              width := pull.width, height := pull.height, format := pull.format })
        else (pull.error, cell, pull.format, pull.width, pull.height, self.props)
  let error := step.1
  let cell := step.2.1
  let format := step.2.2.1
  let width := step.2.2.2.1
  let height := step.2.2.2.2.1
  let props := step.2.2.2.2.2
  if error ≠ 0 ∧ buffer.isSome then
    synthesize_placeholder { self with props := props } props format width height
  else
    { frame := { self with props := props }
      error := error
      buffer := buffer.map (fun _ => cell)
      format := format, width := width, height := height }

/-- `mlt_frame_get_image`: pop an image callback; if one is present invoke it
(decrementing the diagnostic image_count), on success cache the achieved
geometry, convert if a hook is attached and a concrete format was requested,
and record the format — on failure fall back to `generate_test_image`.  With
no callback, a cached image is returned (converted on request); otherwise
`generate_test_image` runs. -/
def mlt_frame_get_image (self : Frame) (buffer : Option (Option Buffer))
    (format width height writable : Int) : ImageResult :=
  let requested_format := format
  match self.stack_image with
  | get_image :: rest =>
    let self := { self with stack_image := rest }
    let props := { self.props with image_count := self.props.image_count - 1 }
    let r := get_image props (cellValue buffer) format width height writable
    let self := { self with props := r.props }
    match buffer, r.buffer with
    | some _, some b =>
      if r.error = 0 then
        let props := { self.props with width := r.width, height := r.height }
        match self.convert_image with
        | some conv =>
          if requested_format ≠ mlt_image_none then
            let c := conv b r.format requested_format
            let props := { props with format := c.2 }
            { frame := { self with props := props }, error := 0
              buffer := some (some c.1), format := c.2, width := r.width, height := r.height }
          else
            let props := { props with format := r.format }
            { frame := { self with props := props }, error := 0
              buffer := some (some b), format := r.format, width := r.width, height := r.height }
        | none =>
          let props := { props with format := r.format }
          { frame := { self with props := props }, error := 0
            buffer := some (some b), format := r.format, width := r.width, height := r.height }
      else
        generate_test_image self (some r.buffer) r.format r.width r.height writable
    | _, _ =>
      generate_test_image self (buffer.map (fun _ => r.buffer)) r.format r.width r.height writable
  | [] =>
    match self.props.image, buffer with
    | some img, some _ =>
      let format := self.props.format
      let width := self.props.width
      let height := self.props.height
      match self.convert_image with
      | some conv =>
        if requested_format ≠ mlt_image_none then
          let c := conv img format requested_format
          let props := { self.props with format := c.2 }
          { frame := { self with props := props }, error := 0
            buffer := some (some c.1), format := c.2, width := width, height := height }
        else
          { frame := self, error := 0
            buffer := some (some img), format := format, width := width, height := height }
      | none =>
        { frame := self, error := 0
          buffer := some (some img), format := format, width := width, height := height }
    | _, _ => generate_test_image self buffer format width height writable

/-- Apply `f` to the first `n` entries of a list, leaving the rest unchanged
(the shape of a C loop over `n` array slots). -/
def map_first (n : Nat) (f : Int → Int) : List Int → List Int
  | [] => []
  | x :: xs =>
    match n with
    | 0 => x :: xs
    | Nat.succ m => f x :: map_first m f xs

/-- Truncation of a rational toward zero: the value a C `double`-to-integer
conversion produces. -/
def c_trunc (q : ℚ) : Int := if q < 0 then -(⌊-q⌋) else ⌊q⌋

/-- One step of the one-shot volume loop: `*p = *p * value` on an `int16_t`
through a `double` multiply. -/
def scale_s16 (value : ℚ) (s : Int) : Int := c_trunc ((s : ℚ) * value)

/-- Result of an audio pull: the frame after its side effects, the error code
(the function returns 0 unconditionally), the final buffer cell value and the
achieved format/frequency/channels/samples. -/
structure AudioResult where
  frame : Frame
  error : Int
  buffer : Option Buffer
  format : Int
  frequency : Int
  channels : Int
  samples : Int

/-- The cached-or-synthesize tail of `mlt_frame_get_audio`, reached when no
callback runs: return the cached audio (converted when a hook is attached and
a concrete format was requested), else default the parameters (1920 samples,
2 channels, 48000 Hz, 16-bit signed), allocate a zeroed buffer of the
format's size (NULL when the size is 0), cache it and set the `test_audio`
flag.  Sample lists stand for the byte buffers, one entry per sample slot. -/
def audio_cached_or_synthesize (self : Frame) (requested_format : Int)
    (_buffer : Option Buffer) (format frequency channels samples : Int) : AudioResult :=
  match self.props.audio with
  | some b0 =>
    let format := self.props.audio_format
    let frequency := self.props.audio_frequency
    let channels := self.props.audio_channels
    let samples := self.props.audio_samples
    match self.convert_audio with
    | some conv =>
      if requested_format ≠ mlt_audio_none then
        let c := conv b0 format requested_format
        { frame := self, error := 0, buffer := some c.1
          format := c.2, frequency := frequency, channels := channels, samples := samples }
      else
        { frame := self, error := 0, buffer := some b0
          format := format, frequency := frequency, channels := channels, samples := samples }
    | none =>
      { frame := self, error := 0, buffer := some b0
        format := format, frequency := frequency, channels := channels, samples := samples }
  | none =>
    let samples := if samples ≤ 0 then 1920 else samples
    let channels := if channels ≤ 0 then 2 else channels
    let frequency := if frequency ≤ 0 then 48000 else frequency
    let format := if format = mlt_audio_none then mlt_audio_s16 else format
    let props :=
      { self.props with
        audio_frequency := frequency, audio_channels := channels
        audio_samples := samples, audio_format := format }
    let size := mlt_audio_format_size format samples channels
    if size ≠ 0 then
      let buf : Buffer := { id := self.next_alloc, data := List.replicate (samples * channels).toNat 0 }
      let props := { props with audio := some buf, audio_size := size, test_audio := 1 }
      { frame := { self with props := props, next_alloc := self.next_alloc + 1 }
        error := 0, buffer := some buf
        format := format, frequency := frequency, channels := channels, samples := samples }
    else
      let props := { props with audio := none, audio_size := size, test_audio := 1 }
      { frame := { self with props := props }, error := 0, buffer := none
        format := format, frequency := frequency, channels := channels, samples := samples }

/-- `mlt_frame_get_audio`: pop an audio callback; when the frame is not muted
(`test_audio`) and a callback was present, invoke it, record the achieved
parameters and convert on request (the callback's return value is ignored);
otherwise take the cached-or-synthesize path.  A final pass applies the
one-shot "meta.volume" attribute to a 16-bit buffer — zero clears the sample
region, one leaves it untouched, any other factor scales every sample — and
clears the attribute; the in-place write is mirrored onto the cached audio
attribute when it aliases the same allocation.  Returns 0 unconditionally. -/
def mlt_frame_get_audio (self : Frame) (buffer : Option Buffer)
    (format frequency channels samples : Int) : AudioResult :=
  let requested_format := format
  let popped := mlt_deque_pop_back self.stack_audio
  let self := { self with stack_audio := popped.2 }
  let hide := self.props.test_audio
  let pre : AudioResult :=
    match popped.1 with
    | some get_audio =>
      if hide = 0 then
        let r := get_audio self.props buffer format frequency channels samples
        let props :=
          { r.props with
            audio_frequency := r.frequency, audio_channels := r.channels
            audio_samples := r.samples, audio_format := r.format }
        let self := { self with props := props }
        match self.convert_audio, r.buffer with
        | some conv, some b =>
          if requested_format ≠ mlt_audio_none then
            let c := conv b r.format requested_format
            { frame := self, error := 0, buffer := some c.1
              format := c.2, frequency := r.frequency, channels := r.channels, samples := r.samples }
          else
            { frame := self, error := 0, buffer := some b
              format := r.format, frequency := r.frequency, channels := r.channels, samples := r.samples }
        | _, _ =>
          { frame := self, error := 0, buffer := r.buffer
            format := r.format, frequency := r.frequency, channels := r.channels, samples := r.samples }
      else
        audio_cached_or_synthesize self requested_format buffer format frequency channels samples
    | none =>
      audio_cached_or_synthesize self requested_format buffer format frequency channels samples
  match pre.frame.props.meta_volume, pre.buffer with
  | some value, some b =>
    if pre.format = mlt_audio_s16 then
      let n := (pre.samples * pre.channels).toNat
      let data :=
        if value = 0 then map_first n (fun _ => 0) b.data
        else if value ≠ 1 then map_first n (scale_s16 value) b.data
        else b.data
      let b1 : Buffer := { b with data := data }
      let props :=
        { pre.frame.props with
          meta_volume := none
          audio := pre.frame.props.audio.map (fun c => if c.id = b.id then b1 else c) }
      { pre with frame := { pre.frame with props := props }, buffer := some b1 }
    else pre
  | _, _ => pre

/-- Modelled from the spec: the external `mlt_audio_calculate_frame_samples`
collaborator — the number of samples in one frame at the given rate, about
frequency divided by the frame rate; the frames of this development carry no
original producer, so the default 25 fps of the external profile applies,
and the position-based rounding is not modelled. -/
def mlt_audio_calculate_frame_samples (frequency _position : Int) : Int :=
  frequency / 25

/-- The sample-rate scan of `mlt_frame_get_waveform`: raise the frequency in
16000 Hz increments until the per-frame sample count reaches the requested
width. -/
def waveform_scan_frequency (w frequency position : Int) : Int :=
  if mlt_audio_calculate_frame_samples frequency position < w then
    waveform_scan_frequency w (frequency + 16000) position
  else frequency
termination_by (w - mlt_audio_calculate_frame_samples frequency position).toNat
decreasing_by
  have h25 : (25 : Int) ≠ 0 := by norm_num
  have hstep : (frequency + 16000) / 25 = frequency / 25 + 640 := by
    have h : frequency + 16000 = frequency + 640 * 25 := by norm_num
    rw [h, Int.add_mul_ediv_right frequency 640 h25]
  simp only [mlt_audio_calculate_frame_samples] at *
  omega

/-- Read a byte of the bitmap; indices outside the buffer read as 0 (the C
code's out-of-range accesses are undefined behavior, modelled as absent). -/
def getByte (l : List Int) (i : Int) : Int :=
  if 0 ≤ i then l.getD i.toNat 0 else 0

/-- Write a byte of the bitmap; out-of-range writes are undefined behavior in
the C code and are modelled as no-ops. -/
def setByte (l : List Int) (i : Int) (v : Int) : List Int :=
  if 0 ≤ i ∧ i.toNat < l.length then l.set i.toNat v else l

/-- The inner vertical-line loop of the waveform renderer: for k from 0 to
the bar height, write 255 at the bar's tip (k = 0 for a negative sample,
k = height for a non-negative one) and add the gray increment elsewhere
(unsigned char arithmetic, so modulo 256). -/
def draw_line (s hgt base w gray : Int) (bm : List Int) : List Int :=
  (List.range (hgt.toNat + 1)).foldl
    (fun bm k =>
      let idx := base + w * (k : Int)
      if s < 0 then
        setByte bm idx (if (k : Int) = 0 then 255 else (getByte bm idx + gray) % 256)
      else
        setByte bm idx (if (k : Int) = hgt then 255 else (getByte bm idx + gray) % 256))
    bm

/-- One sample of the waveform render: `n` counts interleaved samples, so the
column counter is `n / channels` and the channel is `n mod channels`; the bar
height comes from the two's-complement magnitude and the vertical origin
alternates per channel. -/
def render_sample (w h channels skip gray : Int) (n : Nat) (s : Int) (bm : List Int) :
    List Int :=
  let i : Int := cdiv (n : Int) channels
  let j : Int := cmod (n : Int) channels
  let magnitude := if s < 0 then -s else s
  let hgt := cdiv (cdiv (cdiv (h * magnitude) channels) 2) 32768
  let displacement := cdiv (cdiv (h * (j * 2 + 1)) channels) 2 - (if s < 0 then 0 else hgt)
  let base := cdiv i skip + displacement * w
  draw_line s hgt base w gray bm

/-- The full render loop over the interleaved sample region (`samples *
channels` slots); samples beyond the PCM list read as 0 (reading past the
buffer is undefined behavior in the C code). -/
def render_waveform (pcm : List Int) (total : Nat) (w h channels skip gray : Int)
    (bm : List Int) : List Int :=
  (List.range total).foldl
    (fun bm n => render_sample w h channels skip gray n (pcm.getD n 0) bm) bm

/-- The audio pull issued by `mlt_frame_get_waveform`: 16-bit stereo at the
scanned frequency, with a NULL initial pcm pointer. -/
def waveform_audio (self : Frame) (w : Int) : AudioResult :=
  let position := mlt_frame_get_position self
  let frequency := waveform_scan_frequency w 16000 position
  mlt_frame_get_audio self none mlt_audio_s16 frequency 2
    (mlt_audio_calculate_frame_samples frequency position)

/-- Result of a waveform request: the frame after the embedded audio pull and
the bitmap (NULL for a degenerate request). -/
structure WaveformResult where
  frame : Frame
  bitmap : Option Buffer

/-- `mlt_frame_get_waveform`: pull PCM at an auto-scaled rate, return NULL
for a non-positive bitmap area, otherwise allocate a zeroed w*h bitmap,
store it on the frame and render one vertical bar per column and channel.
The stored attribute aliases the returned bitmap, so it holds the rendered
contents.  A NULL PCM buffer would be dereferenced by the C code; rendering
is skipped in the model. -/
def mlt_frame_get_waveform (self : Frame) (w h : Int) : WaveformResult :=
  let a := waveform_audio self w
  let samples := a.samples
  let channels := a.channels
  let size := w * h
  if size ≤ 0 then { frame := a.frame, bitmap := none }
  else
    let bitmap : Buffer := { id := a.frame.next_alloc, data := List.replicate size.toNat 0 }
    let self := { a.frame with next_alloc := a.frame.next_alloc + 1 }
    let skip0 := cdiv samples w
    let skip := if skip0 = 0 then 1 else skip0
    let gray := cdiv 255 skip
    match a.buffer with
    | none =>
      let props := { self.props with waveform := some bitmap }
      { frame := { self with props := props }, bitmap := some bitmap }
    | some pcm =>
      let rendered : Buffer :=
        { bitmap with
          data := render_waveform pcm.data (samples * channels).toNat w h channels skip gray
            bitmap.data }
      let props := { self.props with waveform := some rendered }
      { frame := { self with props := props }, bitmap := some rendered }

/-- `mlt_frame_get_original_producer`: the back-reference stored under
"_producer" (NULL for a NULL frame). -/
def mlt_frame_get_original_producer (self : Option Frame) : Option Unit :=
  match self with
  | some f => f.props._producer
  | none => none

/-- The property store's bulk inherit: value-copies every serializable
(scalar) attribute of the source onto the destination; data-valued
attributes read back as NULL strings and are skipped. -/
def mlt_properties_inherit (dst src : Props) : Props :=
  { dst with
    _position := src._position
    original_position := src.original_position
    width := src.width
    height := src.height
    format := src.format
    aspect_ratio := src.aspect_ratio
    audio_format := src.audio_format
    audio_frequency := src.audio_frequency
    audio_channels := src.audio_channels
    audio_samples := src.audio_samples
    test_image := src.test_image
    test_audio := src.test_audio
    image_count := src.image_count
    meta_volume := src.meta_volume }

/-- The prologue shared by the three clone variants: a fresh frame, bulk
inherit of the source's scalar attributes, and the carried-over special data
properties (the original-producer back-reference and the two movit renderer
handoff hints). -/
def clone_prologue (self : Frame) : Frame :=
  let new_frame := mlt_frame_init none
  let properties := self.props
  let new_props := mlt_properties_inherit new_frame.props properties
  let new_props :=
    { new_props with
      _producer := mlt_frame_get_original_producer (some self)
      movit_convert := properties.movit_convert
      movit_cpu_convert := properties.movit_cpu_convert }
  { new_frame with props := new_props }

/-- The deep audio copy of `mlt_frame_clone`/`mlt_frame_clone_audio`: size
from the stored size or, when 0, from the audio format/samples/channels;
the bytes are copied into a fresh allocation owned by the clone. -/
def clone_deep_audio (src : Props) (new_frame : Frame) : Frame :=
  match src.audio with
  | some data =>
    let size :=
      if src.audio_size ≠ 0 then src.audio_size
      else mlt_audio_format_size src.audio_format src.audio_samples src.audio_channels
    let copy : Buffer := { id := new_frame.next_alloc, data := data.data }
    { new_frame with
      props := { new_frame.props with audio := some copy, audio_size := size }
      next_alloc := new_frame.next_alloc + 1 }
  | none => new_frame

/-- The deep image (and alpha) copy of `mlt_frame_clone`/
`mlt_frame_clone_image`: skipped entirely for the opaque movit format; size
from the stored size or the image format/width/height; the alpha channel is
read through `mlt_frame_get_alpha_size` and cloned when present, sized by
width*height when no size was recorded. -/
def clone_deep_image (self : Frame) (src : Props) (new_frame : Frame) : Frame :=
  match src.image with
  | some data =>
    if src.format ≠ mlt_image_movit then
      let width := src.width
      let height := src.height
      let size := if src.image_size ≠ 0 then src.image_size
        else mlt_image_format_size src.format width height
      let copy : Buffer := { id := new_frame.next_alloc, data := data.data }
      let new_frame :=
        { new_frame with
          props := { new_frame.props with image := some copy, image_size := size }
          next_alloc := new_frame.next_alloc + 1 }
      let alpha := mlt_frame_get_alpha_size (some self) (some 0)
      match alpha.1 with
      | some adata =>
        let asize := if alpha.2.getD 0 ≠ 0 then alpha.2.getD 0 else width * height
        { new_frame with
          props := { new_frame.props with alpha := some { id := new_frame.next_alloc, data := adata.data }, alpha_size := asize }
          next_alloc := new_frame.next_alloc + 1 }
      | none => new_frame
    else new_frame
  | none => new_frame

/-- The shallow-copy bookkeeping shared by the clone variants: the clone
takes a reference on the source frame (the reference count and back-pointer
are modelled by the `cloned_frame` flag). -/
def clone_shallow_ref (new_frame : Frame) : Frame :=
  { new_frame with props := { new_frame.props with cloned_frame := true } }

/-- `mlt_frame_clone`: full copy.  Deep: audio bytes, image bytes (except
movit) and the alpha channel into clone-owned allocations.  Shallow: the
data pointers are aliased with no destructor and the clone holds a reference
on the source. -/
def mlt_frame_clone (self : Frame) (is_deep : Bool) : Frame :=
  let properties := self.props
  let new_frame := clone_prologue self
  if is_deep then
    let new_frame := clone_deep_audio properties new_frame
    clone_deep_image self properties new_frame
  else
    let new_frame := clone_shallow_ref new_frame
    let new_props :=
      { new_frame.props with audio := properties.audio, audio_size := properties.audio_size }
    let new_props := { new_props with image := properties.image, image_size := properties.image_size }
    let alpha := mlt_frame_get_alpha_size (some self) (some 0)
    let new_props := { new_props with alpha := alpha.1, alpha_size := alpha.2.getD 0 }
    { new_frame with props := new_props }

/-- `mlt_frame_clone_audio`: copy of the frame carrying only the audio
data. -/
def mlt_frame_clone_audio (self : Frame) (is_deep : Bool) : Frame :=
  let properties := self.props
  let new_frame := clone_prologue self
  if is_deep then
    clone_deep_audio properties new_frame
  else
    let new_frame := clone_shallow_ref new_frame
    { new_frame with
      props := { new_frame.props with audio := properties.audio, audio_size := properties.audio_size } }

/-- `mlt_frame_clone_image`: copy of the frame carrying only the image and
alpha data. -/
def mlt_frame_clone_image (self : Frame) (is_deep : Bool) : Frame :=
  let properties := self.props
  let new_frame := clone_prologue self
  if is_deep then
    clone_deep_image self properties new_frame
  else
    let new_frame := clone_shallow_ref new_frame
    let new_props :=
      { new_frame.props with image := properties.image, image_size := properties.image_size }
    let alpha := mlt_frame_get_alpha_size (some self) (some 0)
    let new_props := { new_props with alpha := alpha.1, alpha_size := alpha.2.getD 0 }
    { new_frame with props := new_props }

/-! Helper lemmas. -/

theorem map_first_length (f : Int → Int) (l : List Int) :
    map_first l.length f l = l.map f := by
  induction l with
  | nil => rfl
  | cons x xs ih => simp [map_first, ih]

theorem map_first_replicate_zero (f : Int → Int) (hf : f 0 = 0) :
    ∀ (m n : Nat), map_first n f (List.replicate m 0) = List.replicate m 0
  | 0, _ => by simp [map_first]
  | _ + 1, 0 => by simp [List.replicate_succ, map_first]
  | m + 1, n + 1 => by
    simp [List.replicate_succ, map_first, hf, map_first_replicate_zero f hf m n]

theorem c_trunc_zero : c_trunc 0 = 0 := by simp [c_trunc]

theorem toNat_3840 : Int.toNat 3840 = 3840 := rfl

theorem scale_s16_zero (value : ℚ) : scale_s16 value 0 = 0 := by
  simp [scale_s16, c_trunc]

/-! ### C3 -/

/-- C3: the image test-card predicate holds exactly when the image stack is
empty and no image buffer attribute is present, or the `test_image` flag is
set; on a frame with empty stack, no cached image and unset flag it holds,
and pushing any callback falsifies it.  The audio predicate satisfies the
analogous specification over the audio stack, the audio attribute and the
`test_audio` flag. -/
theorem is_test_card_spec (f : Frame) (g : ImageHandler) (ga : AudioHandler) :
    (mlt_frame_is_test_card f = true ↔
      ((f.stack_image = [] ∧ f.props.image = none) ∨ f.props.test_image ≠ 0)) ∧
    (f.stack_image = [] → f.props.image = none → f.props.test_image = 0 →
      mlt_frame_is_test_card f = true ∧
      mlt_frame_is_test_card (mlt_frame_push_get_image f g) = false) ∧
    (mlt_frame_is_test_audio f = true ↔
      ((f.stack_audio = [] ∧ f.props.audio = none) ∨ f.props.test_audio ≠ 0)) ∧
    (f.stack_audio = [] → f.props.audio = none → f.props.test_audio = 0 →
      mlt_frame_is_test_audio f = true ∧
      mlt_frame_is_test_audio (mlt_frame_push_audio f ga) = false) := by
  constructor
  · simp [mlt_frame_is_test_card, mlt_deque_count, List.length_eq_zero,
      Option.isNone_iff_eq_none]
  constructor
  · intro h1 h2 h3
    simp [mlt_frame_is_test_card, mlt_frame_push_get_image, mlt_deque_push_back,
      mlt_deque_count, List.length_eq_zero, Option.isNone_iff_eq_none, h1, h2, h3]
  constructor
  · simp [mlt_frame_is_test_audio, mlt_deque_count, List.length_eq_zero,
      Option.isNone_iff_eq_none]
  · intro h1 h2 h3
    simp [mlt_frame_is_test_audio, mlt_frame_push_audio, mlt_deque_push_back,
      mlt_deque_count, List.length_eq_zero, Option.isNone_iff_eq_none, h1, h2, h3]

/-- C3 witness at a concrete frame and callbacks. -/
theorem is_test_card_spec_witness :
    ((mlt_frame_init none).stack_image = [] ∧ (mlt_frame_init none).props.image = none ∧
      (mlt_frame_init none).props.test_image = 0) ∧
    (mlt_frame_is_test_card (mlt_frame_init none) = true ∧
      mlt_frame_is_test_card
        (mlt_frame_push_get_image (mlt_frame_init none)
          (fun props cell format width height _ =>
            { error := 0, buffer := cell, format := format, width := width,
              height := height, props := props })) = false) :=
  ⟨⟨rfl, rfl, rfl⟩,
    (is_test_card_spec (mlt_frame_init none)
      (fun props cell format width height _ =>
        { error := 0, buffer := cell, format := format, width := width,
          height := height, props := props })
      (fun props cell format frequency channels samples =>
        { props := props, buffer := cell, format := format, frequency := frequency,
          channels := channels, samples := samples })).2.1 rfl rfl rfl⟩

/-! ### C4 -/

/-- C4: on a fresh frame the first position set fixes both the current and
the original position; a second set moves only the current position; and
negative stored positions read back as zero from both accessors. -/
theorem set_position_spec (profile : Option Profile) (P Q R : Int)
    (hP : 0 ≤ P) (hQ : 0 ≤ Q) (hR : R < 0) :
    mlt_frame_get_position (mlt_frame_set_position (mlt_frame_init profile) P) = P ∧
    mlt_frame_original_position (mlt_frame_set_position (mlt_frame_init profile) P) = P ∧
    mlt_frame_get_position
      (mlt_frame_set_position (mlt_frame_set_position (mlt_frame_init profile) P) Q) = Q ∧
    mlt_frame_original_position
      (mlt_frame_set_position (mlt_frame_set_position (mlt_frame_init profile) P) Q) = P ∧
    mlt_frame_get_position (mlt_frame_set_position (mlt_frame_init profile) R) = 0 ∧
    mlt_frame_original_position (mlt_frame_set_position (mlt_frame_init profile) R) = 0 := by
  simp [mlt_frame_init, mlt_frame_set_position, mlt_frame_get_position,
    mlt_frame_original_position]
  omega

/-- C4 witness at a concrete profile and positions. -/
theorem set_position_spec_witness :
    ((0 : Int) ≤ 5 ∧ (0 : Int) ≤ 2 ∧ (-3 : Int) < 0) ∧
    (mlt_frame_get_position (mlt_frame_set_position (mlt_frame_init none) 5) = 5 ∧
      mlt_frame_original_position (mlt_frame_set_position (mlt_frame_init none) 5) = 5 ∧
      mlt_frame_get_position
        (mlt_frame_set_position (mlt_frame_set_position (mlt_frame_init none) 5) 2) = 2 ∧
      mlt_frame_original_position
        (mlt_frame_set_position (mlt_frame_set_position (mlt_frame_init none) 5) 2) = 5 ∧
      mlt_frame_get_position (mlt_frame_set_position (mlt_frame_init none) (-3)) = 0 ∧
      mlt_frame_original_position (mlt_frame_set_position (mlt_frame_init none) (-3)) = 0) :=
  ⟨⟨by decide, by decide, by decide⟩,
    set_position_spec none 5 2 (-3) (by decide) (by decide) (by decide)⟩

/-! ### C10 -/

/-- C10: when the frame's image format is RGBA, both alpha accessors return
NULL even if an alpha buffer attribute is stored, and both return NULL for a
NULL frame. -/
theorem get_alpha_rgba_spec (f : Frame) (size : Option Int)
    (hfmt : f.props.format = mlt_image_rgba) :
    mlt_frame_get_alpha (some f) = none ∧
    (mlt_frame_get_alpha_size (some f) size).1 = none ∧
    mlt_frame_get_alpha none = none ∧
    (mlt_frame_get_alpha_size none size).1 = none := by
  refine ⟨?_, ?_, rfl, rfl⟩ <;>
    · simp only [mlt_frame_get_alpha, mlt_frame_get_alpha_size]
      cases f.props.alpha <;> simp [hfmt]

/-- C10 witness: a concrete RGBA frame with a stored alpha buffer. -/
theorem get_alpha_rgba_spec_witness :
    (let f : Frame :=
      { mlt_frame_init none with
        props := { (mlt_frame_init none).props with
          format := mlt_image_rgba, alpha := some { id := 7, data := [1, 2] }, alpha_size := 2 } }
     f.props.format = mlt_image_rgba ∧
       mlt_frame_get_alpha (some f) = none ∧
       (mlt_frame_get_alpha_size (some f) (some 0)).1 = none ∧
       mlt_frame_get_alpha none = none ∧
       (mlt_frame_get_alpha_size none (some 0)).1 = none) :=
  ⟨rfl,
    (get_alpha_rgba_spec _ (some 0) rfl).1,
    (get_alpha_rgba_spec _ (some 0) rfl).2.1,
    (get_alpha_rgba_spec
      { mlt_frame_init none with
        props := { (mlt_frame_init none).props with
          format := mlt_image_rgba, alpha := some { id := 7, data := [1, 2] }, alpha_size := 2 } }
      (some 0) rfl).2.2.1,
    (get_alpha_rgba_spec
      { mlt_frame_init none with
        props := { (mlt_frame_init none).props with
          format := mlt_image_rgba, alpha := some { id := 7, data := [1, 2] }, alpha_size := 2 } }
      (some 0) rfl).2.2.2⟩

/-! ### C8 -/

theorem clone_deep_audio_stacks (src : Props) (nf : Frame) :
    (clone_deep_audio src nf).stack_image = nf.stack_image ∧
    (clone_deep_audio src nf).stack_audio = nf.stack_audio ∧
    (clone_deep_audio src nf).stack_service = nf.stack_service := by
  unfold clone_deep_audio
  cases src.audio <;> simp

theorem clone_deep_image_stacks (self : Frame) (src : Props) (nf : Frame) :
    (clone_deep_image self src nf).stack_image = nf.stack_image ∧
    (clone_deep_image self src nf).stack_audio = nf.stack_audio ∧
    (clone_deep_image self src nf).stack_service = nf.stack_service := by
  unfold clone_deep_image
  cases src.image
  · simp
  · cases halpha : (mlt_frame_get_alpha_size (some self) (some 0)).1 <;>
      · simp only [halpha]
        split <;> simp

theorem clone_prologue_stacks (self : Frame) :
    (clone_prologue self).stack_image = [] ∧
    (clone_prologue self).stack_audio = [] ∧
    (clone_prologue self).stack_service = [] := by
  simp [clone_prologue, mlt_frame_init]

/-- C8: every clone variant, deep or shallow, yields a frame whose image,
audio and service stacks are all empty — pending processing steps never carry
over to a clone. -/
theorem clone_empty_stacks (f : Frame) (is_deep : Bool) :
    (mlt_frame_clone f is_deep).stack_image = [] ∧
    (mlt_frame_clone f is_deep).stack_audio = [] ∧
    (mlt_frame_clone f is_deep).stack_service = [] ∧
    (mlt_frame_clone_audio f is_deep).stack_image = [] ∧
    (mlt_frame_clone_audio f is_deep).stack_audio = [] ∧
    (mlt_frame_clone_audio f is_deep).stack_service = [] ∧
    (mlt_frame_clone_image f is_deep).stack_image = [] ∧
    (mlt_frame_clone_image f is_deep).stack_audio = [] ∧
    (mlt_frame_clone_image f is_deep).stack_service = [] := by
  obtain ⟨hp1, hp2, hp3⟩ := clone_prologue_stacks f
  unfold mlt_frame_clone mlt_frame_clone_audio mlt_frame_clone_image
  cases is_deep <;>
    simp [clone_shallow_ref, hp1, hp2, hp3,
      (clone_deep_audio_stacks f.props (clone_prologue f)).1,
      (clone_deep_audio_stacks f.props (clone_prologue f)).2.1,
      (clone_deep_audio_stacks f.props (clone_prologue f)).2.2,
      (clone_deep_image_stacks f f.props (clone_deep_audio f.props (clone_prologue f))).1,
      (clone_deep_image_stacks f f.props (clone_deep_audio f.props (clone_prologue f))).2.1,
      (clone_deep_image_stacks f f.props (clone_deep_audio f.props (clone_prologue f))).2.2,
      (clone_deep_image_stacks f f.props (clone_prologue f)).1,
      (clone_deep_image_stacks f f.props (clone_prologue f)).2.1,
      (clone_deep_image_stacks f f.props (clone_prologue f)).2.2]

/-! ### C9 -/

theorem audio_cached_or_synthesize_stacks (self : Frame) (requested_format : Int)
    (buffer : Option Buffer) (format frequency channels samples : Int) :
    (audio_cached_or_synthesize self requested_format buffer format frequency channels
      samples).frame.stack_audio = self.stack_audio := by
  unfold audio_cached_or_synthesize
  cases self.props.audio
  · repeat' first
      | split
      | dsimp only
    all_goals simp
  · cases self.convert_audio
    · simp
    · repeat' first
        | split
        | dsimp only
      all_goals simp

/-- C9: on a frame with the `test_audio` (mute) flag set and a non-empty
audio stack, an audio pull still removes the top callback from the audio
stack even though the callback is never invoked: afterwards the stack is the
remainder, one element shorter. -/
theorem get_audio_pops_when_muted (f : Frame) (g : AudioHandler)
    (rest : List AudioHandler) (buffer : Option Buffer)
    (format frequency channels samples : Int)
    (hmute : f.props.test_audio ≠ 0) (hstack : f.stack_audio = g :: rest) :
    (mlt_frame_get_audio f buffer format frequency channels samples).frame.stack_audio
      = rest ∧
    (mlt_frame_get_audio f buffer format frequency channels
      samples).frame.stack_audio.length + 1 = f.stack_audio.length := by
  have key : (mlt_frame_get_audio f buffer format frequency channels
      samples).frame.stack_audio = rest := by
    unfold mlt_frame_get_audio
    rw [hstack]
    simp only [mlt_deque_pop_back, hmute, if_false]
    have hcos := audio_cached_or_synthesize_stacks
      { f with stack_audio := rest } format buffer format frequency channels samples
    split
    · split
      · simp_all
      · simp_all
    · simp_all
  refine ⟨key, ?_⟩
  rw [key, hstack]
  simp

/-- C9 witness: a concrete muted frame with one stacked audio callback. -/
theorem get_audio_pops_when_muted_witness :
    (let f : Frame :=
      mlt_frame_push_audio
        { mlt_frame_init none with
          props := { (mlt_frame_init none).props with test_audio := 1 } }
        (fun props cell fmt fr ch sa =>
          { props := props, buffer := cell, format := fmt, frequency := fr,
            channels := ch, samples := sa })
     f.props.test_audio ≠ 0 ∧
       (mlt_frame_get_audio f none 0 0 0 0).frame.stack_audio = [] ∧
       (mlt_frame_get_audio f none 0 0 0 0).frame.stack_audio.length + 1
         = f.stack_audio.length) :=
  ⟨by decide,
    (get_audio_pops_when_muted _ _ [] none 0 0 0 0 (by decide) rfl).1,
    (get_audio_pops_when_muted _ _ [] none 0 0 0 0 (by decide) rfl).2⟩

/-! ### C5 -/

/-- C5: an audio pull on a frame with an empty audio stack and no cached
audio attribute, with unspecified format and non-positive
frequency/channels/samples, returns a zero-filled buffer of 1920 * 2 16-bit
sample slots — exactly `mlt_audio_format_size` s16 1920 2 = 7680 bytes —
reports 16-bit signed format, 48000 Hz, 2 channels and 1920 samples, and
sets the `test_audio` flag. -/
theorem get_audio_silence_defaults (f : Frame) (buffer : Option Buffer)
    (frequency channels samples : Int)
    (hstack : f.stack_audio = []) (hdata : f.props.audio = none)
    (hfr : frequency ≤ 0) (hch : channels ≤ 0) (hsa : samples ≤ 0) :
    (mlt_frame_get_audio f buffer mlt_audio_none frequency channels samples).error = 0 ∧
    (mlt_frame_get_audio f buffer mlt_audio_none frequency channels samples).buffer
      = some { id := f.next_alloc, data := List.replicate 3840 0 } ∧
    (mlt_frame_get_audio f buffer mlt_audio_none frequency channels
      samples).frame.props.audio_size = mlt_audio_format_size mlt_audio_s16 1920 2 ∧
    (2 : Int) * 3840 = mlt_audio_format_size mlt_audio_s16 1920 2 ∧
    (mlt_frame_get_audio f buffer mlt_audio_none frequency channels samples).format
      = mlt_audio_s16 ∧
    (mlt_frame_get_audio f buffer mlt_audio_none frequency channels samples).frequency
      = 48000 ∧
    (mlt_frame_get_audio f buffer mlt_audio_none frequency channels samples).channels = 2 ∧
    (mlt_frame_get_audio f buffer mlt_audio_none frequency channels samples).samples = 1920 ∧
    (mlt_frame_get_audio f buffer mlt_audio_none frequency channels
      samples).frame.props.test_audio = 1 := by
  unfold mlt_frame_get_audio audio_cached_or_synthesize
  rw [hstack]
  simp only [mlt_deque_pop_back, hdata, if_pos hsa, if_pos hch, if_pos hfr,
    mlt_audio_none, mlt_audio_s16, mlt_audio_format_size]
  norm_num [toNat_3840]
  cases hv : f.props.meta_volume with
  | none =>
    simp only [hv]
    exact ⟨trivial, trivial, trivial, trivial, trivial, trivial, trivial, trivial⟩
  | some v =>
    simp only [hv]
    rcases eq_or_ne v 0 with h0 | h0
    · simp only [h0]
      norm_num [map_first_replicate_zero (fun _ => (0 : Int)) rfl]
    · rcases eq_or_ne v 1 with h1 | h1
      · simp only [h1, if_neg h0, ite_self]
        norm_num
      · simp only [if_neg h0, if_neg h1,
          map_first_replicate_zero (scale_s16 v) (scale_s16_zero v)]
        exact ⟨trivial, trivial, trivial, trivial, trivial, trivial, trivial, trivial⟩

/-- C5 witness: a fresh frame pulled with all parameters unspecified. -/
theorem get_audio_silence_defaults_witness :
    ((mlt_frame_init none).stack_audio = [] ∧ (mlt_frame_init none).props.audio = none ∧
      (0 : Int) ≤ 0) ∧
    ((mlt_frame_get_audio (mlt_frame_init none) none mlt_audio_none 0 0 0).error = 0 ∧
      (mlt_frame_get_audio (mlt_frame_init none) none mlt_audio_none 0 0 0).buffer
        = some { id := 0, data := List.replicate 3840 0 } ∧
      (mlt_frame_get_audio (mlt_frame_init none) none mlt_audio_none 0 0
        0).frame.props.audio_size = mlt_audio_format_size mlt_audio_s16 1920 2 ∧
      (mlt_frame_get_audio (mlt_frame_init none) none mlt_audio_none 0 0 0).format
        = mlt_audio_s16 ∧
      (mlt_frame_get_audio (mlt_frame_init none) none mlt_audio_none 0 0 0).frequency
        = 48000 ∧
      (mlt_frame_get_audio (mlt_frame_init none) none mlt_audio_none 0 0 0).channels = 2 ∧
      (mlt_frame_get_audio (mlt_frame_init none) none mlt_audio_none 0 0 0).samples = 1920 ∧
      (mlt_frame_get_audio (mlt_frame_init none) none mlt_audio_none 0 0
        0).frame.props.test_audio = 1) := by
  have h := get_audio_silence_defaults (mlt_frame_init none) none 0 0 0 rfl rfl
    (by decide) (by decide) (by decide)
  exact ⟨⟨rfl, rfl, by decide⟩,
    h.1, h.2.1, h.2.2.1, h.2.2.2.2.1, h.2.2.2.2.2.1, h.2.2.2.2.2.2.1,
    h.2.2.2.2.2.2.2.1, h.2.2.2.2.2.2.2.2⟩

/-! ### C6 -/

/-- C6: on a frame whose audio pull returns the cached 16-bit buffer and
which carries a one-shot "meta.volume" attribute, volume 0 zeroes the whole
buffer, volume 1 returns it bit-identical, any other value scales every
sample by that factor, and in every case the volume attribute is absent
after the pull. -/
theorem get_audio_volume_one_shot (f : Frame) (b : Buffer) (v : ℚ)
    (buffer : Option Buffer) (format frequency channels samples : Int)
    (hstack : f.stack_audio = []) (hdata : f.props.audio = some b)
    (hfmt : f.props.audio_format = mlt_audio_s16)
    (hvol : f.props.meta_volume = some v)
    (hconv : f.convert_audio = none)
    (hlen : b.data.length = (f.props.audio_samples * f.props.audio_channels).toNat) :
    (v = 0 →
      (mlt_frame_get_audio f buffer format frequency channels samples).buffer
        = some { id := b.id, data := List.replicate b.data.length 0 }) ∧
    (v = 1 →
      (mlt_frame_get_audio f buffer format frequency channels samples).buffer = some b) ∧
    (v ≠ 0 → v ≠ 1 →
      (mlt_frame_get_audio f buffer format frequency channels samples).buffer
        = some { id := b.id, data := b.data.map (scale_s16 v) }) ∧
    (mlt_frame_get_audio f buffer format frequency channels
      samples).frame.props.meta_volume = none := by
  unfold mlt_frame_get_audio audio_cached_or_synthesize
  rw [hstack]
  simp only [mlt_deque_pop_back, hdata, hconv, hvol, hfmt, ← hlen, map_first_length]
  refine ⟨?_, ?_, ?_, ?_⟩
  · intro h0
    simp [h0, map_first_length, ← hlen, List.map_const']
  · intro h1
    simp [h1]
  · intro h0 h1
    simp [h0, h1, map_first_length, ← hlen]
  · rcases eq_or_ne v 0 with h0 | h0
    · simp [h0]
    · rcases eq_or_ne v 1 with h1 | h1
      · simp [h0, h1]
      · simp [h0, h1]

/-- A concrete frame carrying a cached 16-bit stereo buffer and a one-shot
volume of one half, exercising the C6 volume pass. -/
def volume_demo_frame : Frame :=
  { mlt_frame_init none with
    props := { (mlt_frame_init none).props with
      audio := some { id := 3, data := [100, -100] }
      audio_size := 4
      audio_format := mlt_audio_s16
      audio_samples := 1
      audio_channels := 2
      meta_volume := some (1 / 2) } }

/-- C6 witness: the concrete cached 16-bit buffer scaled by one half. -/
theorem get_audio_volume_one_shot_witness :
    ((1 : ℚ) / 2 ≠ 0 ∧ (1 : ℚ) / 2 ≠ 1) ∧
    (mlt_frame_get_audio volume_demo_frame none mlt_audio_s16 0 0 0).buffer
      = some { id := 3, data := [100, -100].map (scale_s16 (1 / 2)) } ∧
    [(100 : Int), -100].map (scale_s16 (1 / 2)) = [50, -50] ∧
    (mlt_frame_get_audio volume_demo_frame none mlt_audio_s16 0 0 0).frame.props.meta_volume
      = none := by
  have h := get_audio_volume_one_shot volume_demo_frame { id := 3, data := [100, -100] }
    (1 / 2) none mlt_audio_s16 0 0 0 rfl rfl rfl rfl rfl (by decide)
  refine ⟨⟨by norm_num, by norm_num⟩, h.2.2.1 (by norm_num) (by norm_num), ?_, h.2.2.2⟩
  have h100 : scale_s16 (1 / 2) 100 = 50 := by
    simp [scale_s16, c_trunc]
    norm_num
  have hm100 : scale_s16 (1 / 2) (-100) = -50 := by
    simp only [scale_s16, c_trunc]
    norm_num
  have hinv : (1 : ℚ) / 2 = 2⁻¹ := by norm_num
  rw [hinv] at h100 hm100
  simp [h100, hm100]

/-! ### C1 -/

/-- A converter hook that reallocates the buffer it converts, as a real
format converter does when the pixel layout changes. -/
def reallocating_converter : Converter :=
  fun b _format requested_format => ({ id := b.id + 1000, data := b.data }, requested_format)

/-- A fresh frame with the reallocating converter hook attached and nothing
else: empty image stack, no cached image, no test-card producer. -/
def converter_demo_frame : Frame :=
  { mlt_frame_init none with convert_image := some reallocating_converter }

/-- Modelled from the spec: a registered test-card producer whose pulls
succeed with a fixed frame image. -/
def test_card_producer_stub : Producer :=
  fun _format _width _height _writable =>
    some { error := 0, buffer := some { id := 500, data := [1, 2] },
           format := mlt_image_yuv422, width := 1, height := 1, aspect_ratio := 1 }

/-- A fresh frame with a registered test-card producer: empty image stack and
no cached image. -/
def producer_demo_frame : Frame :=
  { mlt_frame_init none with
    props := { (mlt_frame_init none).props with
      test_card_producer := some test_card_producer_stub } }

/-- C1 counterexample: the claim fails on frames with an empty image stack
and no cached image once a converter hook or a test-card producer is in
play.  With the converter hook attached, the first pull synthesizes without
converting while the second pull converts the cached buffer, so the two
calls deliver different buffers (ids 0 and 1000) for identical requests.
With a test-card producer registered, the successful producer pull caches no
"image" attribute at all, so the first call does not cache a buffer. -/
theorem get_image_idempotent_counterexample :
    (converter_demo_frame.stack_image = [] ∧ converter_demo_frame.props.image = none ∧
      (mlt_frame_get_image converter_demo_frame (some none) mlt_image_yuv422 2 2 0).buffer
        = some (some { id := 0, data := List.replicate 8 128 }) ∧
      (mlt_frame_get_image
          (mlt_frame_get_image converter_demo_frame (some none) mlt_image_yuv422 2 2
            0).frame
          (some none) mlt_image_yuv422 2 2 0).buffer
        = some (some { id := 1000, data := List.replicate 8 128 }) ∧
      ({ id := 0, data := List.replicate 8 128 } : Buffer)
        ≠ { id := 1000, data := List.replicate 8 128 }) ∧
    (producer_demo_frame.stack_image = [] ∧ producer_demo_frame.props.image = none ∧
      (mlt_frame_get_image producer_demo_frame (some none) mlt_image_yuv422 2 2
        0).frame.props.image = none) :=
  ⟨⟨rfl, rfl, rfl, rfl, by decide⟩, rfl, rfl, rfl⟩

/-- C1 as amended: on a frame with an empty image stack, no cached image
attribute, no registered test-card producer and no converter hook, two
successive image pulls through a non-NULL buffer out-parameter with the same
requested format/width/height yield the same buffer (pointer identity via
the allocation number) and the same width and height: the first call
synthesizes and caches a placeholder, the second returns the cached
buffer. -/
theorem get_image_idempotent_cache (f : Frame) (cell cell2 : Option Buffer)
    (format width height writable writable2 : Int)
    (hstack : f.stack_image = []) (himg : f.props.image = none)
    (hprod : f.props.test_card_producer = none) (hconv : f.convert_image = none) :
    (∃ b : Buffer,
      (mlt_frame_get_image f (some cell) format width height writable).buffer
        = some (some b) ∧
      (mlt_frame_get_image f (some cell) format width height
        writable).frame.props.image = some b ∧
      (mlt_frame_get_image
          (mlt_frame_get_image f (some cell) format width height writable).frame
          (some cell2) format width height writable2).buffer
        = some (some b)) ∧
    (mlt_frame_get_image
        (mlt_frame_get_image f (some cell) format width height writable).frame
        (some cell2) format width height writable2).width
      = (mlt_frame_get_image f (some cell) format width height writable).width ∧
    (mlt_frame_get_image
        (mlt_frame_get_image f (some cell) format width height writable).frame
        (some cell2) format width height writable2).height
      = (mlt_frame_get_image f (some cell) format width height writable).height := by
  unfold mlt_frame_get_image generate_test_image synthesize_placeholder
  simp only [hstack, himg, hprod, hconv, cellValue]
  refine ⟨⟨_, rfl, rfl, rfl⟩, rfl, rfl⟩

/-- C1 witness: two pulls at yuv422 640x480 on a fresh frame. -/
theorem get_image_idempotent_cache_witness :
    ((mlt_frame_init none).stack_image = [] ∧ (mlt_frame_init none).props.image = none ∧
      (mlt_frame_init none).props.test_card_producer = none ∧
      (mlt_frame_init none).convert_image = none) ∧
    ((∃ b : Buffer,
      (mlt_frame_get_image (mlt_frame_init none) (some none) mlt_image_yuv422 640 480
        0).buffer = some (some b) ∧
      (mlt_frame_get_image (mlt_frame_init none) (some none) mlt_image_yuv422 640 480
        0).frame.props.image = some b ∧
      (mlt_frame_get_image
          (mlt_frame_get_image (mlt_frame_init none) (some none) mlt_image_yuv422 640 480
            0).frame
          (some none) mlt_image_yuv422 640 480 0).buffer = some (some b)) ∧
    (mlt_frame_get_image
        (mlt_frame_get_image (mlt_frame_init none) (some none) mlt_image_yuv422 640 480
          0).frame
        (some none) mlt_image_yuv422 640 480 0).width
      = (mlt_frame_get_image (mlt_frame_init none) (some none) mlt_image_yuv422 640 480
          0).width ∧
    (mlt_frame_get_image
        (mlt_frame_get_image (mlt_frame_init none) (some none) mlt_image_yuv422 640 480
          0).frame
        (some none) mlt_image_yuv422 640 480 0).height
      = (mlt_frame_get_image (mlt_frame_init none) (some none) mlt_image_yuv422 640 480
          0).height) :=
  ⟨⟨rfl, rfl, rfl, rfl⟩,
    get_image_idempotent_cache (mlt_frame_init none) none none mlt_image_yuv422 640 480 0 0
      rfl rfl rfl rfl⟩

/-! ### C2 -/

/-- An audio callback that fails: it stores no buffer and leaves its in-out
parameters and the frame properties untouched (`mlt_frame_get_audio` ignores
its return value). -/
def failing_audio_callback : AudioHandler :=
  fun props _cell format frequency channels samples =>
    { props := props, buffer := none, format := format, frequency := frequency,
      channels := channels, samples := samples }

/-- A frame with one failing audio callback stacked, unmuted, with no cached
audio. -/
def failing_audio_frame : Frame :=
  mlt_frame_push_audio (mlt_frame_init none) failing_audio_callback

/-- C2 counterexample: an audio pull whose popped callback produces no buffer
returns success (0) but hands the consumer a NULL buffer — the audio path
performs no fallback to synthesized or cached content after a callback ran. -/
theorem get_audio_no_fallback_counterexample :
    (mlt_frame_get_audio failing_audio_frame none mlt_audio_none 0 0 0).error = 0 ∧
    (mlt_frame_get_audio failing_audio_frame none mlt_audio_none 0 0 0).buffer = none :=
  ⟨rfl, rfl⟩

theorem audio_cached_or_synthesize_error (self : Frame) (requested_format : Int)
    (buffer : Option Buffer) (format frequency channels samples : Int) :
    (audio_cached_or_synthesize self requested_format buffer format frequency channels
      samples).error = 0 := by
  unfold audio_cached_or_synthesize
  cases self.props.audio
  · repeat' first
      | split
      | dsimp only
    all_goals simp
  · cases self.convert_audio
    · simp
    · repeat' first
        | split
        | dsimp only
      all_goals simp

theorem get_audio_error_zero (f : Frame) (buffer : Option Buffer)
    (format frequency channels samples : Int) :
    (mlt_frame_get_audio f buffer format frequency channels samples).error = 0 := by
  unfold mlt_frame_get_audio
  cases hs : f.stack_audio <;>
    simp only [mlt_deque_pop_back] <;>
    repeat' first
      | split
      | dsimp only
  all_goals simp [audio_cached_or_synthesize_error]

/-- C2 as amended: on an image pull with a non-NULL buffer out-parameter,
when the popped callback fails or produces no buffer and no test-card
producer is registered after the callback ran, the pull recovers by
synthesizing — it returns 0 and a non-null buffer.  An audio pull always
returns 0, but a failing callback's output is handed to the consumer as is
(possibly NULL): the silence fallback applies only when no callback was
invoked and no cached audio exists. -/
theorem pull_failure_recovery_amended (f : Frame) (g : ImageHandler)
    (rest : List ImageHandler) (cell : Option Buffer)
    (format width height writable : Int)
    (f2 : Frame) (buffer2 : Option Buffer)
    (format2 frequency2 channels2 samples2 : Int)
    (hstack : f.stack_image = g :: rest)
    (hfail :
      (g { f.props with image_count := f.props.image_count - 1 } cell format width height
        writable).error ≠ 0 ∨
      (g { f.props with image_count := f.props.image_count - 1 } cell format width height
        writable).buffer = none)
    (hprod :
      (g { f.props with image_count := f.props.image_count - 1 } cell format width height
        writable).props.test_card_producer = none) :
    ((mlt_frame_get_image f (some cell) format width height writable).error = 0 ∧
      ∃ b : Buffer, (mlt_frame_get_image f (some cell) format width height writable).buffer
        = some (some b)) ∧
    (mlt_frame_get_audio f2 buffer2 format2 frequency2 channels2 samples2).error = 0 := by
  refine ⟨?_, get_audio_error_zero f2 buffer2 format2 frequency2 channels2 samples2⟩
  unfold mlt_frame_get_image generate_test_image synthesize_placeholder
  simp only [hstack, cellValue, Option.getD_some]
  rcases hbuf : (g { f.props with image_count := f.props.image_count - 1 } cell format width
      height writable).buffer with _ | b
  · simp only [hbuf, hprod]
    norm_num
  · have herr : (g { f.props with image_count := f.props.image_count - 1 } cell format width
        height writable).error ≠ 0 := by
      rcases hfail with herr | hnone
      · exact herr
      · rw [hbuf] at hnone; cases hnone
    simp only [hbuf]
    rw [if_neg herr]
    simp only [hprod]
    norm_num

/-- An image callback that fails with error 1 and stores no buffer. -/
def failing_image_callback : ImageHandler :=
  fun props _cell format width height _writable =>
    { error := 1, buffer := none, format := format, width := width, height := height,
      props := props }

/-- A frame with one failing image callback stacked. -/
def failing_image_frame : Frame :=
  mlt_frame_push_get_image (mlt_frame_init none) failing_image_callback

/-- C2 amended witness: a concrete failing image callback recovers through
synthesis, and a concrete audio pull returns 0. -/
theorem pull_failure_recovery_amended_witness :
    (failing_image_frame.stack_image = [failing_image_callback] ∧
      (failing_image_callback
        { failing_image_frame.props with
          image_count := failing_image_frame.props.image_count - 1 }
        none mlt_image_yuv422 640 480 0).buffer = none ∧
      (failing_image_callback
        { failing_image_frame.props with
          image_count := failing_image_frame.props.image_count - 1 }
        none mlt_image_yuv422 640 480 0).props.test_card_producer = none) ∧
    (((mlt_frame_get_image failing_image_frame (some none) mlt_image_yuv422 640 480
        0).error = 0 ∧
      ∃ b : Buffer,
        (mlt_frame_get_image failing_image_frame (some none) mlt_image_yuv422 640 480
          0).buffer = some (some b)) ∧
      (mlt_frame_get_audio failing_audio_frame none mlt_audio_none 0 0 0).error = 0) :=
  ⟨⟨rfl, rfl, rfl⟩,
    pull_failure_recovery_amended failing_image_frame failing_image_callback []
      none mlt_image_yuv422 640 480 0 failing_audio_frame none mlt_audio_none 0 0 0
      rfl (Or.inr rfl) rfl⟩

/-! ### C7 -/

theorem getD_eq_zero_of_all_zero (l : List Int) (n : Nat) (h : ∀ x ∈ l, x = 0) :
    l.getD n 0 = 0 := by
  rcases hg : l[n]? with _ | v
  · simp [List.getD, hg]
  · have hv := List.getElem?_mem hg
    simp [List.getD, hg, h v hv]

theorem setByte_mem (l : List Int) (i v x : Int) (P : Int → Prop)
    (hl : ∀ y ∈ l, P y) (hv : P v) (hx : x ∈ setByte l i v) : P x := by
  unfold setByte at hx
  split at hx
  · rcases List.mem_or_eq_of_mem_set hx with hm | he
    · exact hl x hm
    · exact he ▸ hv
  · exact hl x hx

theorem cdiv_zero_left (b : Int) : cdiv 0 b = 0 := Int.zero_tdiv b

/-- A zero sample draws only its 255 tip at the channel baseline: the bar
height is zero, so the single loop step writes 255 and adds no gray. -/
theorem render_sample_zero (w h channels skip gray : Int) (n : Nat) (bm : List Int)
    (hbm : ∀ x ∈ bm, x = 0 ∨ x = 255) :
    ∀ x ∈ render_sample w h channels skip gray n 0 bm, x = 0 ∨ x = 255 := by
  intro x hx
  unfold render_sample draw_line at hx
  norm_num [cdiv_zero_left] at hx
  exact setByte_mem bm _ 255 x (fun y => y = 0 ∨ y = 255) hbm (Or.inr rfl) hx

/-- Rendering a silent PCM region preserves the bytes ∈ {0, 255} invariant. -/
theorem render_waveform_silent_mem (pcm : List Int) (hsilent : ∀ s ∈ pcm, s = 0)
    (total : Nat) (w h channels skip gray : Int) (bm : List Int)
    (hbm : ∀ x ∈ bm, x = 0 ∨ x = 255) :
    ∀ x ∈ render_waveform pcm total w h channels skip gray bm, x = 0 ∨ x = 255 := by
  unfold render_waveform
  suffices hgen : ∀ (l : List Nat) (bm : List Int), (∀ x ∈ bm, x = 0 ∨ x = 255) →
      ∀ x ∈ l.foldl (fun bm n => render_sample w h channels skip gray n (pcm.getD n 0) bm)
        bm, x = 0 ∨ x = 255 by
    exact hgen (List.range total) bm hbm
  intro l
  induction l with
  | nil => exact fun bm hbm x hx => hbm x hx
  | cons a as ih =>
    intro bm hbm
    simp only [List.foldl_cons]
    apply ih
    rw [getD_eq_zero_of_all_zero pcm a hsilent]
    exact render_sample_zero w h channels skip gray a bm hbm

/-- C7 as amended: a degenerate request (non-positive bitmap area) returns no
buffer; and for a silent (all-zero) PCM pull the rendered bitmap carries no
gray accumulation — every byte is 0 or 255 (a 255 tip is drawn at each
channel's baseline, so the bitmap is not all-zero in general). -/
theorem get_waveform_silence_amended (f : Frame) (w h : Int) (b bm : Buffer) :
    (w * h ≤ 0 → (mlt_frame_get_waveform f w h).bitmap = none) ∧
    ((waveform_audio f w).buffer = some b → (∀ s ∈ b.data, s = 0) →
      (mlt_frame_get_waveform f w h).bitmap = some bm →
      ∀ x ∈ bm.data, x = 0 ∨ x = 255) := by
  constructor
  · intro hle
    unfold mlt_frame_get_waveform
    rw [if_pos hle]
  · intro hbuf hsilent hbm
    by_cases hle : w * h ≤ 0
    · unfold mlt_frame_get_waveform at hbm
      rw [if_pos hle] at hbm
      cases hbm
    · unfold mlt_frame_get_waveform at hbm
      rw [if_neg hle] at hbm
      simp only [hbuf] at hbm
      have hbm2 : bm.data = render_waveform b.data
          ((waveform_audio f w).samples * (waveform_audio f w).channels).toNat w h
          (waveform_audio f w).channels
          (if cdiv (waveform_audio f w).samples w = 0 then 1
            else cdiv (waveform_audio f w).samples w)
          (cdiv 255
            (if cdiv (waveform_audio f w).samples w = 0 then 1
              else cdiv (waveform_audio f w).samples w))
          (List.replicate (w * h).toNat 0) := by
        cases hbm
        rfl
      rw [hbm2]
      apply render_waveform_silent_mem b.data hsilent
      intro x hx
      exact Or.inl (List.eq_of_mem_replicate hx)

/-- A frame with a cached silent stereo 16-bit buffer of 2 samples. -/
def silent_audio_frame : Frame :=
  { mlt_frame_init none with
    props := { (mlt_frame_init none).props with
      audio := some { id := 100, data := [0, 0, 0, 0] }
      audio_size := 8
      audio_format := mlt_audio_s16
      audio_frequency := 16000
      audio_channels := 2
      audio_samples := 2 } }

theorem waveform_scan_16000 : waveform_scan_frequency 2 16000 0 = 16000 := by
  rw [waveform_scan_frequency]
  norm_num [mlt_audio_calculate_frame_samples]

theorem silent_audio_buffer_eq :
    (waveform_audio silent_audio_frame 2).buffer = some { id := 100, data := [0, 0, 0, 0] } := by
  unfold waveform_audio
  rw [show mlt_frame_get_position silent_audio_frame = 0 from rfl]
  dsimp only
  rw [waveform_scan_16000]
  rfl

theorem silent_waveform_eq :
    (mlt_frame_get_waveform silent_audio_frame 2 4).bitmap
      = some { id := 0, data := [0, 0, 255, 255, 0, 0, 255, 255] } := by
  unfold mlt_frame_get_waveform waveform_audio
  rw [show mlt_frame_get_position silent_audio_frame = 0 from rfl]
  dsimp only
  rw [waveform_scan_16000]
  rfl

/-- C7 counterexample: on a silent 4-sample PCM pull the 2x4 waveform bitmap
is not all-zero — the renderer writes a 255 tip at each channel's baseline
row for every zero sample. -/
theorem get_waveform_silence_counterexample :
    (waveform_audio silent_audio_frame 2).buffer = some { id := 100, data := [0, 0, 0, 0] } ∧
    (mlt_frame_get_waveform silent_audio_frame 2 4).bitmap
      = some { id := 0, data := [0, 0, 255, 255, 0, 0, 255, 255] } ∧
    ([0, 0, 255, 255, 0, 0, 255, 255] : List Int) ≠ List.replicate 8 0 :=
  ⟨silent_audio_buffer_eq, silent_waveform_eq, by decide⟩

/-- C7 amended witness: the silent concrete frame's bitmap and the degenerate
width-zero request. -/
theorem get_waveform_silence_amended_witness :
    ((0 : Int) * 4 ≤ 0 ∧ (mlt_frame_get_waveform silent_audio_frame 0 4).bitmap = none) ∧
    (∀ x ∈ ([0, 0, 255, 255, 0, 0, 255, 255] : List Int), x = 0 ∨ x = 255) :=
  ⟨⟨by decide,
      (get_waveform_silence_amended silent_audio_frame 0 4
        { id := 100, data := [0, 0, 0, 0] }
        { id := 0, data := [0, 0, 255, 255, 0, 0, 255, 255] }).1 (by decide)⟩,
    by
      have h := (get_waveform_silence_amended silent_audio_frame 2 4
        { id := 100, data := [0, 0, 0, 0] }
        { id := 0, data := [0, 0, 255, 255, 0, 0, 255, 255] }).2
        silent_audio_buffer_eq (by decide) silent_waveform_eq
      exact h⟩

end MltFrame
